import Mathlib

/-!
# Verification of the gym-progress-report rule engine

Shallow embedding of the access-control and report-lifecycle core of the
repository (API route handlers under `src/pages/api` and the shared helpers
in `src/lib/api-helpers.ts`), together with theorems settling the frozen
claims about the specification.

Conventions of the embedding:
* timestamps are integers (milliseconds since the JavaScript epoch);
* JS numbers carried by validated request bodies are rationals (`Rat`);
* database ids (UUIDs in the source) are natural numbers — only equality of
  ids is ever used by the code;
* a Supabase query such as `.eq(...).is("deleted_at", null).single()` is
  modelled by `List.find?` with the corresponding boolean predicate;
* an HTTP error response is an `ApiErr` carrying the status code and the
  message thrown through `ApiException`; handlers return `Except ApiErr α`.
-/

namespace GymReport

/-! ## Data model (`src/db`, `src/types.ts`) -/

/-- The `role` column of the `users` table: `super_admin`, `trainer`, `client`. -/
inductive Role where
  | superAdmin
  | trainer
  | client
deriving DecidableEq

/-- The `AuthenticatedUser` produced by `getAuthenticatedUser`
(`api-helpers`): id plus role (email / full name are irrelevant here). -/
structure AuthUser where
  id : Nat
  role : Role
deriving DecidableEq

/-- A row of the `users` table (fields the handlers consult). -/
structure UserRow where
  id : Nat
  role : Role
  deleted_at : Option Int
deriving DecidableEq

/-- A row of the `trainer_client` assignment table. -/
structure Assignment where
  trainer_id : Nat
  client_id : Nat
  is_active : Bool
  started_at : Int
deriving DecidableEq

/-- A row of the `reports` table. -/
structure Report where
  id : Nat
  client_id : Nat
  year : Int
  week_number : Nat
  sequence : Nat
  weight : Option Rat
  waist : Option Rat
  chest : Option Rat
  biceps_left : Option Rat
  biceps_right : Option Rat
  thigh_left : Option Rat
  thigh_right : Option Rat
  cardio_days : Option Rat
  note : Option String
  created_at : Int
  deleted_at : Option Int
deriving DecidableEq

/-- A row of the `report_images` table. -/
structure ReportImage where
  id : Nat
  report_id : Nat
  storage_path : String
  size_bytes : Int
  width : Option Nat
  height : Option Nat
  created_at : Int
  is_deleted : Bool
  deleted_at : Option Int
deriving DecidableEq

/-- The persistent store the handlers query and mutate. -/
structure DB where
  users : List UserRow
  assignments : List Assignment
  reports : List Report
  images : List ReportImage
deriving DecidableEq

/-- An error response: HTTP status code plus the `error` message of the
`ApiException` thrown by the handler. -/
structure ApiErr where
  status : Nat
  msg : String
deriving DecidableEq

/-- The `ReportDTO` returned by report endpoints: the row plus its images. -/
structure ReportDTO where
  report : Report
  images : List ReportImage
deriving DecidableEq

/-! ## Week derivation (`api-helpers`, `getWeekInfo` / `getCurrentWeekInfo`)

The source computes, for a `Date`:
```
const year = date.getFullYear();
const startOfYear = new Date(year, 0, 1);
const dayOfYear = Math.floor((date - startOfYear) / 86400000) + 1;
const weekNumber = Math.ceil(dayOfYear / 7);
```
We represent the instant by its calendar year and the (non-negative) number
of milliseconds elapsed since January 1 of that year. -/

/-- Embedding of `getWeekInfo` (and of `getCurrentWeekInfo`, which runs the
same computation on `new Date()`). -/
def getWeekInfo (year : Int) (msIntoYear : Nat) : Int × Nat :=
  let dayOfYear := msIntoYear / 86400000 + 1
  (year, (dayOfYear + 6) / 7)

/-- Gregorian leap-year test. -/
def isLeap (y : Int) : Bool :=
  (y % 4 == 0 && y % 100 != 0) || y % 400 == 0

/-- Length of month `m` (1-12) in year `y`. -/
def daysInMonth (y : Int) (m : Nat) : Nat :=
  if m == 2 then (if isLeap y then 29 else 28)
  else if m == 4 || m == 6 || m == 9 || m == 11 then 30
  else 31

/-- 1-based ordinal day of the year of the civil date `(y, m, d)`. -/
def dayOfYearOf (y : Int) (m d : Nat) : Nat :=
  ((List.range (m - 1)).map (fun i => daysInMonth y (i + 1))).sum + d

/-- `getWeekInfo` evaluated at midnight (UTC) of the civil date `(y, m, d)`:
the instant lies `(dayOfYearOf y m d - 1) * 86400000` ms into its year. -/
def getWeekInfoOn (y : Int) (m d : Nat) : Int × Nat :=
  getWeekInfo y ((dayOfYearOf y m d - 1) * 86400000)

/-- Days between the civil date `(y, m, d)` and 1970-01-01
(Howard Hinnant's `days_from_civil` algorithm). -/
def daysFromCivil (y : Int) (m d : Nat) : Int :=
  let y2 : Int := if m ≤ 2 then y - 1 else y
  let era : Int := (if 0 ≤ y2 then y2 else y2 - 399) / 400
  let yoe : Int := y2 - era * 400
  let mp : Int := ((m : Int) + 9) % 12
  let doy : Int := (153 * mp + 2) / 5 + (d : Int) - 1
  let doe : Int := yoe * 365 + yoe / 4 - yoe / 100 + doy
  era * 146097 + doe - 719468

/-- ISO-8601 day of week of a civil date: 1 = Monday … 7 = Sunday
(1970-01-01 was a Thursday). -/
def isoDow (y : Int) (m d : Nat) : Int :=
  (daysFromCivil y m d + 3).emod 7 + 1

/-- Number of ISO-8601 weeks in the week-based year `y` (52 or 53). -/
def isoWeeksInYear (y : Int) : Int :=
  let p : Int → Int := fun yy => (yy + yy / 4 - yy / 100 + yy / 400) % 7
  if p y == 4 || p (y - 1) == 3 then 53 else 52

/-- Modelled from the spec: "Computes (year, week_number) from `now` via ISO
week numbering". This is the standard ISO-8601 week date: week 1 is the week
containing the first Thursday of the year, weeks run Monday to Sunday, and a
date in the first or last calendar days of a year may belong to the adjacent
ISO week-based year. Used only to compare the source's `getWeekInfo` against
the specified derivation. -/
def isoWeekInfoSpec (y : Int) (m d : Nat) : Int × Nat :=
  let ord : Int := dayOfYearOf y m d
  let dow : Int := isoDow y m d
  let w : Int := (ord - dow + 10) / 7
  if w < 1 then (y - 1, (isoWeeksInYear (y - 1)).toNat)
  else if isoWeeksInYear y < w then (y + 1, 1)
  else (y, w.toNat)

/-! ## Shared lookup helpers

Each Supabase query used by the handlers, as a pure function of the store. -/

/-- `supabase.from("users").select(...).eq("id", id).eq("role", role)
.is("deleted_at", null).single()`. -/
def findUser (db : DB) (id : Nat) (role : Role) : Option UserRow :=
  db.users.find? (fun u => u.id == id && u.role == role && u.deleted_at == none)

/-- `supabase.from("reports").select(...).eq("id", reportId)
.is("deleted_at", null).single()`. -/
def findReport (db : DB) (reportId : Nat) : Option Report :=
  db.reports.find? (fun r => r.id == reportId && r.deleted_at == none)

/-- `supabase.from("trainer_client").select(...).eq("trainer_id", t)
.eq("client_id", c).eq("is_active", true).single()` — truthiness of the row. -/
def isActiveAssignment (db : DB) (trainerId clientId : Nat) : Bool :=
  db.assignments.any
    (fun a => a.trainer_id == trainerId && a.client_id == clientId && a.is_active)

/-- The `.eq("trainer_id", t).eq("client_id", c)` filter on the assignment
table. -/
def assignPred (trainerId clientId : Nat) (a : Assignment) : Bool :=
  a.trainer_id == trainerId && a.client_id == clientId

/-- `supabase.from("trainer_client").select(...).eq("trainer_id", t)
.eq("client_id", c).single()` — the pair's row irrespective of activity. -/
def findAssignment (db : DB) (trainerId clientId : Nat) : Option Assignment :=
  db.assignments.find? (assignPred trainerId clientId)

/-- Non-deleted reports already stored for `(clientId, year, week_number)`
(the quota query of `POST /api/clients/{clientId}/reports`). -/
def weekReports (db : DB) (clientId : Nat) (year : Int) (week : Nat) : List Report :=
  db.reports.filter
    (fun r => r.client_id == clientId && r.year == year
      && r.week_number == week && r.deleted_at == none)

/-- Non-deleted images of a report (the count query of
`POST /api/reports/{reportId}/images/upload-url`). -/
def nonDeletedImages (db : DB) (reportId : Nat) : List ReportImage :=
  db.images.filter (fun i => i.report_id == reportId && i.is_deleted == false)

/-- Ordering used by `.order("created_at", { ascending: true })` on images. -/
def imageLe (a b : ReportImage) : Prop := a.created_at ≤ b.created_at

instance : DecidableRel imageLe := fun a b => Int.decLe a.created_at b.created_at

/-- Non-deleted images of a report ordered by creation time ascending
(the image query of `GET` / `PATCH /api/reports/{reportId}`). -/
def imagesOf (db : DB) (reportId : Nat) : List ReportImage :=
  (nonDeletedImages db reportId).insertionSort imageLe

/-! ## Access checks -/

/-- `checkReportAccess` of `src/pages/api/reports/[reportId].ts`: fetches the
(non-deleted) report first and reports no access whenever the fetch returns
nothing; otherwise super-admins, the owning client, and trainers holding an
active assignment with the owner have access. -/
def checkReportAccess (db : DB) (userId : Nat) (userRole : Role) (reportId : Nat) :
    Bool × Option Nat :=
  match findReport db reportId with
  | none => (false, none)
  | some r =>
    let clientId := r.client_id
    if userRole = Role.superAdmin then (true, some clientId)
    else if userRole = Role.client ∧ userId = clientId then (true, some clientId)
    else if userRole = Role.trainer then (isActiveAssignment db userId clientId, some clientId)
    else (false, some clientId)

/-- `checkTrendsAccess` of the trends route (identical to `checkReportAccess`
of `src/pages/api/clients/[clientId]/reports/index.ts`): client-id based
access for super-admin / self / actively assigned trainer. -/
def checkTrendsAccess (db : DB) (userId : Nat) (userRole : Role) (clientId : Nat) : Bool :=
  if userRole = Role.superAdmin then true
  else if userRole = Role.client ∧ userId = clientId then true
  else if userRole = Role.trainer then isActiveAssignment db userId clientId
  else false

/-- `checkImageUploadAccess` of `upload-url.ts`: fetches the (non-deleted)
report; only the owning client or a super-admin may upload. -/
def checkImageUploadAccess (db : DB) (userId : Nat) (userRole : Role) (reportId : Nat) :
    Bool × Option Nat :=
  match findReport db reportId with
  | none => (false, none)
  | some r =>
    let clientId := r.client_id
    if userRole = Role.client ∧ userId = clientId then (true, some clientId)
    else if userRole = Role.superAdmin then (true, some clientId)
    else (false, none)

/-- `canEditReport` of `api-helpers`: editable iff `sequence == 0` and the
creation instant is strictly later than one hour before `now`. -/
def canEditReport (createdAt : Int) (sequence : Nat) (now : Int) : Bool :=
  if sequence != 0 then false
  else decide (now - 3600000 < createdAt)

/-! ## Request bodies and zod validation -/

/-- Body of `POST /api/clients/{clientId}/reports` after JSON parsing: every
field optional (`none` = absent from the JSON object). -/
structure SubmitBody where
  weight : Option Rat
  waist : Option Rat
  chest : Option Rat
  biceps_left : Option Rat
  biceps_right : Option Rat
  thigh_left : Option Rat
  thigh_right : Option Rat
  cardio_days : Option Rat
  note : Option String
deriving DecidableEq

/-- A `z.number().min(0).max(mx).optional()` check. -/
def validMeasurement (v : Option Rat) (mx : Rat) : Bool :=
  match v with
  | none => true
  | some x => decide (0 ≤ x ∧ x ≤ mx)

/-- `z.number().int().min(0).max(7).optional()` for `cardio_days`. -/
def validCardioDays (v : Option Rat) : Bool :=
  match v with
  | none => true
  | some x => x.den == 1 && decide (0 ≤ x ∧ x ≤ 7)

/-- `z.string().max(1000).optional()` for `note`. -/
def validNote (v : Option String) : Bool :=
  match v with
  | none => true
  | some s => s.length ≤ 1000

/-- `SubmitReportSchema.parse` succeeds on the body. -/
def validSubmitBody (b : SubmitBody) : Bool :=
  validMeasurement b.weight 1000 && validMeasurement b.waist 500
    && validMeasurement b.chest 500
    && validMeasurement b.biceps_left 200 && validMeasurement b.biceps_right 200
    && validMeasurement b.thigh_left 300 && validMeasurement b.thigh_right 300
    && validCardioDays b.cardio_days && validNote b.note

/-- The `note` field of a `PATCH /api/reports/{reportId}` body as raw JSON:
absent, explicit `null`, or a string. -/
inductive NoteField where
  | absent
  | nullv
  | str (s : String)
deriving DecidableEq

/-- Body of `PATCH /api/reports/{reportId}` after JSON parsing and before zod
validation. Numeric fields are absent or a number; `note` may also be an
explicit `null`. -/
structure EditBodyRaw where
  weight : Option Rat
  waist : Option Rat
  chest : Option Rat
  biceps_left : Option Rat
  biceps_right : Option Rat
  thigh_left : Option Rat
  thigh_right : Option Rat
  cardio_days : Option Rat
  note : NoteField
deriving DecidableEq

/-- Result of `EditReportSchema.parse`: each field either absent (leave
unchanged) or a value to store. `note` is `z.string().max(1000).optional()`
— not nullable — so a parsed body can never carry `null` for it. -/
structure EditBody where
  weight : Option Rat
  waist : Option Rat
  chest : Option Rat
  biceps_left : Option Rat
  biceps_right : Option Rat
  thigh_left : Option Rat
  thigh_right : Option Rat
  cardio_days : Option Rat
  note : Option String
deriving DecidableEq

/-- The zod validation error response produced by `createApiRoute`'s
`ZodError` handler. -/
def zodErr : ApiErr := ⟨400, "Validation error"⟩

/-- `EditReportSchema.parse` on a raw body: rejects out-of-range numbers and
an explicit `null` note (the schema is `.optional()` but not `.nullable()`). -/
def parseEditReport (b : EditBodyRaw) : Except ApiErr EditBody :=
  if !(validMeasurement b.weight 1000 && validMeasurement b.waist 500
      && validMeasurement b.chest 500
      && validMeasurement b.biceps_left 200 && validMeasurement b.biceps_right 200
      && validMeasurement b.thigh_left 300 && validMeasurement b.thigh_right 300
      && validCardioDays b.cardio_days) then
    .error zodErr
  else
    match b.note with
    | .nullv => .error zodErr
    | .absent =>
      .ok ⟨b.weight, b.waist, b.chest, b.biceps_left, b.biceps_right,
        b.thigh_left, b.thigh_right, b.cardio_days, none⟩
    | .str s =>
      if s.length ≤ 1000 then
        .ok ⟨b.weight, b.waist, b.chest, b.biceps_left, b.biceps_right,
          b.thigh_left, b.thigh_right, b.cardio_days, some s⟩
      else .error zodErr

/-- `Object.keys(updateData).filter(v => v !== undefined).length > 0`:
at least one field present on the parsed patch. -/
def hasAnyField (p : EditBody) : Bool :=
  p.weight.isSome || p.waist.isSome || p.chest.isSome
    || p.biceps_left.isSome || p.biceps_right.isSome
    || p.thigh_left.isSome || p.thigh_right.isSome
    || p.cardio_days.isSome || p.note.isSome

/-- Body of `POST /api/reports/{reportId}/images/upload-url`. -/
structure UploadBody where
  contentType : String
  size : Int
deriving DecidableEq

/-- `ImageUploadRequestSchema.parse` succeeds: content type jpeg or png and
`z.number().int().min(1).max(5 * 1024 * 1024)` on the size. -/
def validUploadBody (b : UploadBody) : Bool :=
  (b.contentType == "image/jpeg" || b.contentType == "image/png")
    && decide (1 ≤ b.size ∧ b.size ≤ 5242880)

/-! ## Handlers -/

/-! ## Error values thrown by the handlers -/

/-- `requireAuth` (`api-helpers`): 401 when no principal. -/
def authErr : ApiErr := ⟨401, "Authentication required"⟩

/-- 403 of the submit handler's role check. -/
def submitAccessErr : ApiErr :=
  ⟨403, "Access denied. Only clients can submit their own reports."⟩

/-- 404 when the addressed client does not exist (or is soft-deleted). -/
def clientNotFoundErr : ApiErr := ⟨404, "Client not found"⟩

/-- 409 Conflict of the weekly quota check. -/
def quotaErr : ApiErr := ⟨409, "Maximum 2 reports per week exceeded"⟩

/-- 403 of `GET /api/reports/{reportId}`'s access check. -/
def accessViewErr : ApiErr :=
  ⟨403, "Access denied. You can only view your own reports, your assigned clients' reports, or be a super admin."⟩

/-- 403 of `PATCH /api/reports/{reportId}`'s access check. -/
def accessEditErr : ApiErr :=
  ⟨403, "Access denied. You can only edit your own reports, your assigned clients' reports, or be a super admin."⟩

/-- 403 of `PATCH`'s ownership check. -/
def ownershipEditErr : ApiErr :=
  ⟨403, "Only the client who created the report can edit it (or super_admin)."⟩

/-- 404 when the addressed report does not exist (or is soft-deleted). -/
def reportNotFoundErr : ApiErr := ⟨404, "Report not found"⟩

/-- 400 when a PATCH body carries no field at all. -/
def noFieldsErr : ApiErr := ⟨400, "No valid fields provided for update"⟩

/-- 403 of `DELETE /api/reports/{reportId}`'s access check. -/
def accessDeleteErr : ApiErr :=
  ⟨403, "Access denied. You can only delete your own reports or be a super admin."⟩

/-- 403 of `DELETE`'s ownership check. -/
def ownershipDeleteErr : ApiErr :=
  ⟨403, "Only the client who created the report can delete it (or super_admin)."⟩

/-- 403 of the upload-url handler's access check. -/
def accessUploadErr : ApiErr :=
  ⟨403, "Access denied. Only the client who owns the report can upload images."⟩

/-- 400 of the 3-image ceiling. -/
def imageLimitErr : ApiErr := ⟨400, "Maximum 3 images per report exceeded"⟩

/-- 403 of the activate/deactivate handlers' authorization check. -/
def manageAssignErr : ApiErr :=
  ⟨403, "Access denied. You can only manage your own client assignments or be a super admin."⟩

/-- 404 of the trainer existence check. -/
def trainerNotFoundErr : ApiErr := ⟨404, "Trainer not found"⟩

/-- 404 of deactivate's assignment existence check. -/
def assignmentNotFoundErr : ApiErr := ⟨404, "Assignment not found"⟩

/-- 403 of the trends handler's access check. -/
def trendsAccessErr : ApiErr :=
  ⟨403, "Access denied. You can only view your own trends, your assigned clients' trends, or be a super admin."⟩

/-- JS `value || null` on an optional number: `0` (the only falsy value a
validated measurement can take) and an absent field both store `null`. -/
def orNullRat (v : Option Rat) : Option Rat :=
  match v with
  | none => none
  | some x => if x = 0 then none else some x

/-- JS `value || null` on the optional note: the empty string stores `null`. -/
def orNullStr (v : Option String) : Option String :=
  match v with
  | none => none
  | some s => if s = "" then none else some s

/-- The row inserted by `POST /api/clients/{clientId}/reports`: each supplied
field is stored via `value || null`. -/
def storedReport (clientId newId : Nat) (year : Int) (week sequence : Nat)
    (b : SubmitBody) (createdAt : Int) : Report :=
  { id := newId
    client_id := clientId
    year := year
    week_number := week
    sequence := sequence
    weight := orNullRat b.weight
    waist := orNullRat b.waist
    chest := orNullRat b.chest
    biceps_left := orNullRat b.biceps_left
    biceps_right := orNullRat b.biceps_right
    thigh_left := orNullRat b.thigh_left
    thigh_right := orNullRat b.thigh_right
    cardio_days := orNullRat b.cardio_days
    note := orNullStr b.note
    created_at := createdAt
    deleted_at := none }

/-- `POST /api/clients/{clientId}/reports` (submit). `nowYear`/`nowMsIntoYear`
represent the submission instant for `getCurrentWeekInfo`; `nowMs` is the
`created_at` timestamp assigned by the store; `newId` the generated UUID. -/
def postSubmitReport (db : DB) (user : Option AuthUser) (clientId : Nat)
    (body : SubmitBody) (nowYear : Int) (nowMsIntoYear : Nat) (nowMs : Int)
    (newId : Nat) : Except ApiErr (DB × ReportDTO) :=
  match user with
  | none => .error authErr
  | some u =>
    if u.role ≠ Role.client ∨ u.id ≠ clientId then
      .error submitAccessErr
    else
      match findUser db clientId Role.client with
      | none => .error clientNotFoundErr
      | some _ =>
        if !validSubmitBody body then .error zodErr
        else
          let yw := getWeekInfo nowYear nowMsIntoYear
          let existing := weekReports db clientId yw.1 yw.2
          if 2 ≤ existing.length then
            .error quotaErr
          else
            let newReport := storedReport clientId newId yw.1 yw.2 existing.length body nowMs
            .ok ({ db with reports := db.reports ++ [newReport] },
              ⟨newReport, []⟩)

/-- `GET /api/reports/{reportId}`. -/
def getReport (db : DB) (user : Option AuthUser) (reportId : Nat) :
    Except ApiErr ReportDTO :=
  match user with
  | none => .error authErr
  | some u =>
    if (checkReportAccess db u.id u.role reportId).1 = false then
      .error accessViewErr
    else
      match findReport db reportId with
      | none => .error reportNotFoundErr
      | some r => .ok ⟨r, imagesOf db reportId⟩

/-- Field-wise partial update applied by the `PATCH` handler: a field set to
`undefined` in the update object is stripped from the query and leaves the
stored value untouched. -/
def applyEdit (r : Report) (p : EditBody) : Report :=
  { r with
    weight := match p.weight with | some v => some v | none => r.weight
    waist := match p.waist with | some v => some v | none => r.waist
    chest := match p.chest with | some v => some v | none => r.chest
    biceps_left := match p.biceps_left with | some v => some v | none => r.biceps_left
    biceps_right := match p.biceps_right with | some v => some v | none => r.biceps_right
    thigh_left := match p.thigh_left with | some v => some v | none => r.thigh_left
    thigh_right := match p.thigh_right with | some v => some v | none => r.thigh_right
    cardio_days := match p.cardio_days with | some v => some v | none => r.cardio_days
    note := match p.note with | some s => some s | none => r.note }

/-- The store after `update(...).eq("id", reportId)` on the reports table. -/
def patchedDb (db : DB) (reportId : Nat) (p : EditBody) : DB :=
  { db with reports := db.reports.map (fun x => if x.id == reportId then applyEdit x p else x) }

/-- The Forbidden error of the edit-window / sequence check. -/
def editWindowErr : ApiErr :=
  ⟨403, "Report can only be edited within 1 hour of creation and must be the first report of the week (sequence 0)."⟩

/-- `PATCH /api/reports/{reportId}` (edit). -/
def patchReport (db : DB) (user : Option AuthUser) (reportId : Nat)
    (raw : EditBodyRaw) (now : Int) : Except ApiErr (DB × ReportDTO) :=
  match user with
  | none => .error authErr
  | some u =>
    if (checkReportAccess db u.id u.role reportId).1 = false then
      .error accessEditErr
    else
      match findReport db reportId with
      | none => .error reportNotFoundErr
      | some r =>
        if u.role ≠ Role.superAdmin ∧ u.id ≠ r.client_id then
          .error ownershipEditErr
        else if u.role ≠ Role.superAdmin ∧ canEditReport r.created_at r.sequence now = false then
          .error editWindowErr
        else
          match parseEditReport raw with
          | .error e => .error e
          | .ok p =>
            if !hasAnyField p then
              .error noFieldsErr
            else
              .ok (patchedDb db reportId p, ⟨applyEdit r p, imagesOf db reportId⟩)

/-- `DELETE /api/reports/{reportId}` (soft delete). -/
def deleteReport (db : DB) (user : Option AuthUser) (reportId : Nat) (now : Int) :
    Except ApiErr DB :=
  match user with
  | none => .error authErr
  | some u =>
    if (checkReportAccess db u.id u.role reportId).1 = false then
      .error accessDeleteErr
    else
      match findReport db reportId with
      | none => .error reportNotFoundErr
      | some r =>
        if u.role ≠ Role.superAdmin ∧ u.id ≠ r.client_id then
          .error ownershipDeleteErr
        else
          .ok { db with
            reports := db.reports.map
              (fun x => if x.id == reportId then { x with deleted_at := some now } else x) }

/-- Result of a successful upload-URL request. -/
structure UploadResult where
  storagePath : String
  imageId : Nat
deriving DecidableEq

/-- `POST /api/reports/{reportId}/images/upload-url`: validates the body,
enforces the 3-image ceiling over non-deleted images, then allocates an id
and storage path and registers the pending image row (width/height null)
before any byte transfer happens. -/
def postUploadUrl (db : DB) (user : Option AuthUser) (reportId : Nat)
    (body : UploadBody) (newImageId : Nat) (nowMs : Int) :
    Except ApiErr (DB × UploadResult) :=
  match user with
  | none => .error authErr
  | some u =>
    if (checkImageUploadAccess db u.id u.role reportId).1 = false then
      .error accessUploadErr
    else if !validUploadBody body then .error zodErr
    else
      let existing := nonDeletedImages db reportId
      if 3 ≤ existing.length then
        .error imageLimitErr
      else
        let ext := if body.contentType == "image/jpeg" then "jpg" else "png"
        let path := "reports/" ++ toString reportId ++ "/" ++ toString newImageId ++ "." ++ ext
        let img : ReportImage :=
          { id := newImageId
            report_id := reportId
            storage_path := path
            size_bytes := body.size
            width := none
            height := none
            created_at := nowMs
            is_deleted := false
            deleted_at := none }
        .ok ({ db with images := db.images ++ [img] }, ⟨path, newImageId⟩)

/-- The assignments table after activate's `update({is_active: true,
started_at: now}).eq("trainer_id", t).eq("client_id", c)`. -/
def assignmentsActivated (db : DB) (trainerId clientId : Nat) (now : Int) : DB :=
  { db with
    assignments := db.assignments.map
      (fun a => if a.trainer_id == trainerId && a.client_id == clientId then
        { a with is_active := true, started_at := now } else a) }

/-- The assignments table after deactivate's `update({is_active: false})
.eq("trainer_id", t).eq("client_id", c)`. -/
def assignmentsDeactivated (db : DB) (trainerId clientId : Nat) : DB :=
  { db with
    assignments := db.assignments.map
      (fun a => if a.trainer_id == trainerId && a.client_id == clientId then
        { a with is_active := false } else a) }

/-- `POST /api/trainers/{trainerId}/clients/{clientId}/activate`:
idempotent — updates the pair's row to active with a fresh `started_at` when
it exists, inserts it otherwise. -/
def postActivate (db : DB) (user : Option AuthUser) (trainerId clientId : Nat)
    (now : Int) : Except ApiErr (DB × Assignment) :=
  match user with
  | none => .error authErr
  | some u =>
    if u.role ≠ Role.superAdmin ∧ u.id ≠ trainerId then
      .error manageAssignErr
    else
      match findUser db trainerId Role.trainer with
      | none => .error trainerNotFoundErr
      | some _ =>
        match findUser db clientId Role.client with
        | none => .error clientNotFoundErr
        | some _ =>
          match findAssignment db trainerId clientId with
          | some _ =>
            .ok (assignmentsActivated db trainerId clientId now,
              ⟨trainerId, clientId, true, now⟩)
          | none =>
            let row : Assignment := ⟨trainerId, clientId, true, now⟩
            .ok ({ db with assignments := db.assignments ++ [row] }, row)

/-- `POST /api/trainers/{trainerId}/clients/{clientId}/deactivate`: requires
the pair's row to exist (404 otherwise) and sets `is_active := false`,
leaving `started_at` unchanged. -/
def postDeactivate (db : DB) (user : Option AuthUser) (trainerId clientId : Nat) :
    Except ApiErr (DB × Assignment) :=
  match user with
  | none => .error authErr
  | some u =>
    if u.role ≠ Role.superAdmin ∧ u.id ≠ trainerId then
      .error manageAssignErr
    else
      match findUser db trainerId Role.trainer with
      | none => .error trainerNotFoundErr
      | some _ =>
        match findUser db clientId Role.client with
        | none => .error clientNotFoundErr
        | some _ =>
          match findAssignment db trainerId clientId with
          | none => .error assignmentNotFoundErr
          | some a =>
            .ok (assignmentsDeactivated db trainerId clientId,
              { a with is_active := false })

/-! ## Trends (`GET /api/clients/{clientId}/trends`) -/

/-- The eight metric names accepted by `TrendsQuerySchema`. -/
inductive Metric where
  | weight
  | waist
  | chest
  | bicepsLeft
  | bicepsRight
  | thighLeft
  | thighRight
  | cardioDays
deriving DecidableEq

/-- The stored value of a metric on a report row. -/
def metricValue : Metric → Report → Option Rat
  | .weight, r => r.weight
  | .waist, r => r.waist
  | .chest, r => r.chest
  | .bicepsLeft, r => r.biceps_left
  | .bicepsRight, r => r.biceps_right
  | .thighLeft, r => r.thigh_left
  | .thighRight, r => r.thigh_right
  | .cardioDays, r => r.cardio_days

/-- `allMetrics` of the trends handler: the seven measurements plus
cardio-days, the default when the query names no metrics. -/
def allMetrics : List Metric :=
  [.weight, .waist, .chest, .bicepsLeft, .bicepsRight, .thighLeft, .thighRight, .cardioDays]

/-- Ordering used by `.order("created_at", { ascending: true })` on reports. -/
def reportLe (a b : Report) : Prop := a.created_at ≤ b.created_at

instance : DecidableRel reportLe := fun a b => Int.decLe a.created_at b.created_at

instance : IsTotal Report reportLe := ⟨fun a b => Int.le_total a.created_at b.created_at⟩

instance : IsTrans Report reportLe := ⟨fun _ _ _ h h2 => le_trans h h2⟩

/-- The rows read by the trends query: the client's non-deleted reports
ordered by `created_at` ascending. -/
def trendsSourceReports (db : DB) (clientId : Nat) : List Report :=
  (db.reports.filter (fun r => r.client_id == clientId && r.deleted_at == none)).insertionSort reportLe

/-- The array built for one metric: that metric's non-null values over the
source rows, in order. -/
def trendSeries (db : DB) (clientId : Nat) (m : Metric) : List Rat :=
  (trendsSourceReports db clientId).filterMap (metricValue m)

/-- The trends map assembled by the handler: one (metric, array) pair per
requested metric, with metrics whose array came out empty removed. -/
def trendsResult (db : DB) (clientId : Nat) (requested : List Metric) :
    List (Metric × List Rat) :=
  (requested.map (fun m => (m, trendSeries db clientId m))).filter
    (fun p => !p.2.isEmpty)

/-- `GET /api/clients/{clientId}/trends`: access check, client-existence
check, then the trends map over the requested metrics (all eight when the
query names none). -/
def getTrends (db : DB) (user : Option AuthUser) (clientId : Nat)
    (metrics : Option (List Metric)) : Except ApiErr (List (Metric × List Rat)) :=
  match user with
  | none => .error authErr
  | some u =>
    if checkTrendsAccess db u.id u.role clientId = false then
      .error trendsAccessErr
    else
      match findUser db clientId Role.client with
      | none => .error clientNotFoundErr
      | some _ =>
        let requested := match metrics with | none => allMetrics | some ms => ms
        .ok (trendsResult db clientId requested)

/-! ## Claims -/

/-- C1: the claim states that the (year, week_number) pair stored on a new
report is derived from the submission instant via ISO-8601 week numbering,
so that late-December dates may carry the adjacent ISO year. The code's
`getWeekInfo` (whose own comment says "ISO 8601 week numbering") instead
returns the plain calendar year together with `ceil(dayOfYear / 7)`: on
2024-12-30 it yields (2024, 53) where ISO-8601 yields (2025, 1), and even on
the mid-year date 2025-03-10 it yields week 10 where ISO-8601 yields week 11.
The code therefore contradicts its own documentation and the spec. -/
theorem c1_week_derivation_not_iso :
    getWeekInfoOn 2024 12 30 = (2024, 53)
      ∧ isoWeekInfoSpec 2024 12 30 = (2025, 1)
      ∧ getWeekInfoOn 2024 12 30 ≠ isoWeekInfoSpec 2024 12 30
      ∧ getWeekInfoOn 2025 3 10 = (2025, 10)
      ∧ isoWeekInfoSpec 2025 3 10 = (2025, 11) := by
  refine ⟨by decide, by decide, by decide, by decide, by decide⟩

/-- C2: for every client and submission instant, when at least two
non-deleted reports already exist for `(clientId, year, week_number)` the
submission fails with 409 Conflict irrespective of the stored sequence
values; otherwise the report is persisted with `sequence` equal to the
current count and returned with an empty image list. -/
theorem c2_weekly_quota (db : DB) (clientId newId : Nat) (body : SubmitBody)
    (nowYear : Int) (nowMsIntoYear : Nat) (nowMs : Int) (cr : UserRow)
    (y : Int) (w n : Nat)
    (hcl : findUser db clientId Role.client = some cr)
    (hbody : validSubmitBody body = true)
    (hyw : getWeekInfo nowYear nowMsIntoYear = (y, w))
    (hn : (weekReports db clientId y w).length = n) :
    (2 ≤ n →
      postSubmitReport db (some ⟨clientId, Role.client⟩) clientId body
          nowYear nowMsIntoYear nowMs newId
        = .error quotaErr)
      ∧ (n < 2 →
        postSubmitReport db (some ⟨clientId, Role.client⟩) clientId body
            nowYear nowMsIntoYear nowMs newId
          = .ok ({ db with reports := db.reports ++ [storedReport clientId newId y w n body nowMs] },
              ⟨storedReport clientId newId y w n body nowMs, []⟩)
          ∧ (storedReport clientId newId y w n body nowMs).sequence = n) := by
  subst hn
  constructor
  · intro hq
    simp [postSubmitReport, hcl, hbody, hyw, hq]
  · intro hq
    refine ⟨?_, rfl⟩
    simp [postSubmitReport, hcl, hbody, hyw, Nat.not_le.mpr hq]

/-- Witness for C2 at a concrete store: the first submission of the week by
client 1 is created with sequence 0 and no images. -/
theorem c2_weekly_quota_witness :
    postSubmitReport ⟨[⟨1, Role.client, none⟩], [], [], []⟩ (some ⟨1, Role.client⟩) 1
        ⟨some 70, none, none, none, none, none, none, none, none⟩ 2025 0 100 10
      = .ok (⟨[⟨1, Role.client, none⟩], [], [storedReport 1 10 2025 1 0 ⟨some 70, none, none, none, none, none, none, none, none⟩ 100], []⟩,
          ⟨storedReport 1 10 2025 1 0 ⟨some 70, none, none, none, none, none, none, none, none⟩ 100, []⟩)
      ∧ (storedReport 1 10 2025 1 0 ⟨some 70, none, none, none, none, none, none, none, none⟩ 100).sequence = 0 :=
  (c2_weekly_quota ⟨[⟨1, Role.client, none⟩], [], [], []⟩ 1 10
    ⟨some 70, none, none, none, none, none, none, none, none⟩ 2025 0 100
    ⟨1, Role.client, none⟩ 2025 1 0 (by decide) (by decide) (by decide) (by decide)).2
    (by decide)

/-- C3: with a parseable, non-empty patch: every non-admin edit of a
sequence-1 report fails with some 403 Forbidden regardless of the elapsed
time; the owner's edit of a sequence-0 report succeeds strictly before
`created_at + 1h` and fails with the edit-window 403 at or after exactly one
hour; a super-admin's edit succeeds with no sequence or time constraint. -/
theorem c3_edit_window (db : DB) (rid : Nat) (r : Report) (raw : EditBodyRaw)
    (p : EditBody) (now : Int) (adminId : Nat)
    (hr : findReport db rid = some r)
    (hp : parseEditReport raw = .ok p)
    (hne : hasAnyField p = true) :
    (∀ uid role, role ≠ Role.superAdmin → r.sequence = 1 →
      ∃ e, patchReport db (some ⟨uid, role⟩) rid raw now = .error e ∧ e.status = 403)
      ∧ (r.sequence = 0 → now - r.created_at < 3600000 →
        patchReport db (some ⟨r.client_id, Role.client⟩) rid raw now
          = .ok (patchedDb db rid p, ⟨applyEdit r p, imagesOf db rid⟩))
      ∧ (r.sequence = 0 → 3600000 ≤ now - r.created_at →
        patchReport db (some ⟨r.client_id, Role.client⟩) rid raw now
          = .error editWindowErr)
      ∧ patchReport db (some ⟨adminId, Role.superAdmin⟩) rid raw now
          = .ok (patchedDb db rid p, ⟨applyEdit r p, imagesOf db rid⟩) := by
  refine ⟨?_, ?_, ?_, ?_⟩
  · intro uid role hrole hseq
    have hce : canEditReport r.created_at r.sequence now = false := by
      simp [canEditReport, hseq]
    cases role with
    | superAdmin => exact absurd rfl hrole
    | client =>
      by_cases hid : uid = r.client_id
      · subst hid
        exact ⟨editWindowErr, by simp [patchReport, checkReportAccess, hr, hce], rfl⟩
      · exact ⟨accessEditErr, by simp [patchReport, checkReportAccess, hr, hid], rfl⟩
    | trainer =>
      by_cases hact : isActiveAssignment db uid r.client_id = true
      · by_cases hid : uid = r.client_id
        · subst hid
          exact ⟨editWindowErr, by simp [patchReport, checkReportAccess, hr, hact, hce], rfl⟩
        · exact ⟨ownershipEditErr,
            by simp [patchReport, checkReportAccess, hr, hact, hid], rfl⟩
      · exact ⟨accessEditErr,
          by simp [patchReport, checkReportAccess, hr,
            Bool.eq_false_iff.mpr hact], rfl⟩
  · intro hseq hwin
    have hce : canEditReport r.created_at r.sequence now = true := by
      simp [canEditReport, hseq]
      omega
    simp [patchReport, checkReportAccess, hr, hce, hp, hne]
  · intro hseq hwin
    have hce : canEditReport r.created_at r.sequence now = false := by
      simp [canEditReport, hseq]
      omega
    simp [patchReport, checkReportAccess, hr, hce]
  · simp [patchReport, checkReportAccess, hr, hp, hne]

/-- Witness for C3: the owner of a sequence-0 report created at t = 100 ms
edits it at t = 200 ms (inside the window) and the patch is applied. -/
theorem c3_edit_window_witness :
    patchReport ⟨[⟨1, Role.client, none⟩], [],
        [⟨10, 1, 2025, 1, 0, some 70, none, none, none, none, none, none, none, some "hi", 100, none⟩], []⟩
      (some ⟨1, Role.client⟩) 10
      ⟨some 71, none, none, none, none, none, none, none, NoteField.absent⟩ 200
    = .ok (patchedDb ⟨[⟨1, Role.client, none⟩], [],
        [⟨10, 1, 2025, 1, 0, some 70, none, none, none, none, none, none, none, some "hi", 100, none⟩], []⟩
        10 ⟨some 71, none, none, none, none, none, none, none, none⟩,
      ⟨applyEdit ⟨10, 1, 2025, 1, 0, some 70, none, none, none, none, none, none, none, some "hi", 100, none⟩
          ⟨some 71, none, none, none, none, none, none, none, none⟩,
        imagesOf ⟨[⟨1, Role.client, none⟩], [],
          [⟨10, 1, 2025, 1, 0, some 70, none, none, none, none, none, none, none, some "hi", 100, none⟩], []⟩ 10⟩) :=
  (c3_edit_window ⟨[⟨1, Role.client, none⟩], [],
      [⟨10, 1, 2025, 1, 0, some 70, none, none, none, none, none, none, none, some "hi", 100, none⟩], []⟩
    10 ⟨10, 1, 2025, 1, 0, some 70, none, none, none, none, none, none, none, some "hi", 100, none⟩
    ⟨some 71, none, none, none, none, none, none, none, NoteField.absent⟩
    ⟨some 71, none, none, none, none, none, none, none, none⟩ 200 0
    (by decide) rfl (by decide)).2.1 rfl (by decide)

/-- Inversion of a successful `EditReportSchema.parse`: every numeric field
of the parsed patch equals the raw field, and an absent raw note parses to an
absent note. -/
theorem parseEditReport_ok_fields (raw : EditBodyRaw) (p : EditBody)
    (h : parseEditReport raw = .ok p) :
    p.weight = raw.weight ∧ p.waist = raw.waist ∧ p.chest = raw.chest
      ∧ p.biceps_left = raw.biceps_left ∧ p.biceps_right = raw.biceps_right
      ∧ p.thigh_left = raw.thigh_left ∧ p.thigh_right = raw.thigh_right
      ∧ p.cardio_days = raw.cardio_days
      ∧ (raw.note = NoteField.absent → p.note = none) := by
  unfold parseEditReport at h
  split at h
  · cases h
  · split at h
    · cases h
    · cases h
      simp_all
    · split at h
      · cases h
        simp_all
      · cases h

/-- A raw patch whose note is an explicit `null` never parses: both the
numeric-range branch and the note branch throw the zod validation error. -/
theorem parseEditReport_null_note (raw : EditBodyRaw)
    (h : raw.note = NoteField.nullv) :
    parseEditReport raw = .error zodErr := by
  unfold parseEditReport
  split
  · rfl
  · rw [h]

/-- C4 counterexample: an owner's in-window edit of a sequence-0 report whose
patch carries an explicit `null` for the note is rejected with the 400
validation error instead of succeeding and clearing the note —
`EditReportSchema`'s `note` is `.optional()` but not `.nullable()`. -/
theorem c4_null_note_counterexample :
    patchReport ⟨[⟨1, Role.client, none⟩], [],
        [⟨10, 1, 2025, 1, 0, some 70, none, none, none, none, none, none, none, some "hi", 100, none⟩], []⟩
      (some ⟨1, Role.client⟩) 10
      ⟨none, none, none, none, none, none, none, none, NoteField.nullv⟩ 200
    = .error zodErr := by rfl

/-- C4 (amended): for a permitted edit, fields omitted from the patch are
left unchanged on the stored report; a patch carrying an explicit `null` for
the note does not clear it but fails with the 400 validation error. -/
theorem c4_partial_update (db : DB) (rid : Nat) (r : Report) (raw : EditBodyRaw)
    (p : EditBody) (now : Int)
    (hr : findReport db rid = some r)
    (hwin : canEditReport r.created_at r.sequence now = true)
    (hp : parseEditReport raw = .ok p)
    (hne : hasAnyField p = true) :
    patchReport db (some ⟨r.client_id, Role.client⟩) rid raw now
      = .ok (patchedDb db rid p, ⟨applyEdit r p, imagesOf db rid⟩)
      ∧ (raw.weight = none → (applyEdit r p).weight = r.weight)
      ∧ (raw.waist = none → (applyEdit r p).waist = r.waist)
      ∧ (raw.chest = none → (applyEdit r p).chest = r.chest)
      ∧ (raw.biceps_left = none → (applyEdit r p).biceps_left = r.biceps_left)
      ∧ (raw.biceps_right = none → (applyEdit r p).biceps_right = r.biceps_right)
      ∧ (raw.thigh_left = none → (applyEdit r p).thigh_left = r.thigh_left)
      ∧ (raw.thigh_right = none → (applyEdit r p).thigh_right = r.thigh_right)
      ∧ (raw.cardio_days = none → (applyEdit r p).cardio_days = r.cardio_days)
      ∧ (raw.note = NoteField.absent → (applyEdit r p).note = r.note)
      ∧ (∀ raw2 : EditBodyRaw, raw2.note = NoteField.nullv →
        patchReport db (some ⟨r.client_id, Role.client⟩) rid raw2 now = .error zodErr) := by
  obtain ⟨h1, h2, h3, h4, h5, h6, h7, h8, h9⟩ := parseEditReport_ok_fields raw p hp
  refine ⟨by simp [patchReport, checkReportAccess, hr, hwin, hp, hne],
    ?_, ?_, ?_, ?_, ?_, ?_, ?_, ?_, ?_, ?_⟩
  · intro hw; simp [applyEdit, h1, hw]
  · intro hw; simp [applyEdit, h2, hw]
  · intro hw; simp [applyEdit, h3, hw]
  · intro hw; simp [applyEdit, h4, hw]
  · intro hw; simp [applyEdit, h5, hw]
  · intro hw; simp [applyEdit, h6, hw]
  · intro hw; simp [applyEdit, h7, hw]
  · intro hw; simp [applyEdit, h8, hw]
  · intro hw; simp [applyEdit, h9 hw]
  · intro raw2 hnull
    simp [patchReport, checkReportAccess, hr, hwin, parseEditReport_null_note raw2 hnull]

/-- Witness for C4 (amended): a patch supplying only the weight leaves the
stored note untouched. -/
theorem c4_partial_update_witness :
    patchReport ⟨[⟨1, Role.client, none⟩], [],
        [⟨10, 1, 2025, 1, 0, some 70, none, none, none, none, none, none, none, some "hi", 100, none⟩], []⟩
      (some ⟨1, Role.client⟩) 10
      ⟨some 72, none, none, none, none, none, none, none, NoteField.absent⟩ 200
    = .ok (patchedDb ⟨[⟨1, Role.client, none⟩], [],
        [⟨10, 1, 2025, 1, 0, some 70, none, none, none, none, none, none, none, some "hi", 100, none⟩], []⟩
        10 ⟨some 72, none, none, none, none, none, none, none, none⟩,
      ⟨applyEdit ⟨10, 1, 2025, 1, 0, some 70, none, none, none, none, none, none, none, some "hi", 100, none⟩
          ⟨some 72, none, none, none, none, none, none, none, none⟩,
        imagesOf ⟨[⟨1, Role.client, none⟩], [],
          [⟨10, 1, 2025, 1, 0, some 70, none, none, none, none, none, none, none, some "hi", 100, none⟩], []⟩ 10⟩)
    ∧ (applyEdit ⟨10, 1, 2025, 1, 0, some 70, none, none, none, none, none, none, none, some "hi", 100, none⟩
        ⟨some 72, none, none, none, none, none, none, none, none⟩).note = some "hi" :=
  ⟨(c4_partial_update ⟨[⟨1, Role.client, none⟩], [],
      [⟨10, 1, 2025, 1, 0, some 70, none, none, none, none, none, none, none, some "hi", 100, none⟩], []⟩
    10 ⟨10, 1, 2025, 1, 0, some 70, none, none, none, none, none, none, none, some "hi", 100, none⟩
    ⟨some 72, none, none, none, none, none, none, none, NoteField.absent⟩
    ⟨some 72, none, none, none, none, none, none, none, none⟩ 200
    (by decide) (by decide) rfl (by decide)).1,
  (c4_partial_update ⟨[⟨1, Role.client, none⟩], [],
      [⟨10, 1, 2025, 1, 0, some 70, none, none, none, none, none, none, none, some "hi", 100, none⟩], []⟩
    10 ⟨10, 1, 2025, 1, 0, some 70, none, none, none, none, none, none, none, some "hi", 100, none⟩
    ⟨some 72, none, none, none, none, none, none, none, NoteField.absent⟩
    ⟨some 72, none, none, none, none, none, none, none, none⟩ 200
    (by decide) (by decide) rfl (by decide)).2.2.2.2.2.2.2.2.2.1 rfl⟩

/-- C5 counterexample: the owning client requests an upload URL with
contentType jpeg and size 0 on a report holding no image at all — every
condition the claim names for allocation holds (jpeg, size ≤ 5 MB, fewer
than 3 non-deleted images), yet the request fails the 400 validation error
because `ImageUploadRequestSchema` also requires `size ≥ 1`. -/
theorem c5_size_zero_counterexample :
    nonDeletedImages ⟨[⟨1, Role.client, none⟩], [],
        [⟨10, 1, 2025, 1, 0, none, none, none, none, none, none, none, none, none, 100, none⟩], []⟩ 10 = []
      ∧ postUploadUrl ⟨[⟨1, Role.client, none⟩], [],
          [⟨10, 1, 2025, 1, 0, none, none, none, none, none, none, none, none, none, 100, none⟩], []⟩
        (some ⟨1, Role.client⟩) 10 ⟨"image/jpeg", 0⟩ 50 500 = .error zodErr
      ∧ (0 : Int) ≤ 5242880 :=
  ⟨rfl, rfl, by decide⟩

/-- The pending image row registered by the upload-url handler before any
byte transfer: dimensions unknown, not deleted. -/
def pendingImage (reportId newImageId : Nat) (body : UploadBody) (nowMs : Int) :
    ReportImage :=
  { id := newImageId
    report_id := reportId
    storage_path := "reports/" ++ toString reportId ++ "/" ++ toString newImageId
      ++ "." ++ (if body.contentType == "image/jpeg" then "jpg" else "png")
    size_bytes := body.size
    width := none
    height := none
    created_at := nowMs
    is_deleted := false
    deleted_at := none }

/-- C5 (amended): for the owning client's upload request, the body is valid
exactly when contentType is jpeg or png and the size is between 1 byte and
5 MB; an invalid body fails with the 400 validation error; a valid body
fails with the image-limit 400 exactly when the report already holds 3 or
more non-deleted images — soft-deleted images never count — and otherwise
the id and storage path are allocated and the pending record is registered. -/
theorem c5_upload_ceiling (db : DB) (rid : Nat) (r : Report) (body : UploadBody)
    (newImageId : Nat) (nowMs : Int)
    (hr : findReport db rid = some r) :
    (validUploadBody body = true ↔
      ((body.contentType = "image/jpeg" ∨ body.contentType = "image/png")
        ∧ 1 ≤ body.size ∧ body.size ≤ 5242880))
      ∧ (validUploadBody body = false →
        postUploadUrl db (some ⟨r.client_id, Role.client⟩) rid body newImageId nowMs
          = .error zodErr)
      ∧ (validUploadBody body = true → 3 ≤ (nonDeletedImages db rid).length →
        postUploadUrl db (some ⟨r.client_id, Role.client⟩) rid body newImageId nowMs
          = .error imageLimitErr)
      ∧ (validUploadBody body = true → (nonDeletedImages db rid).length < 3 →
        postUploadUrl db (some ⟨r.client_id, Role.client⟩) rid body newImageId nowMs
          = .ok ({ db with images := db.images ++ [pendingImage rid newImageId body nowMs] },
              ⟨(pendingImage rid newImageId body nowMs).storage_path, newImageId⟩))
      ∧ (∀ img : ReportImage, img.is_deleted = true →
        nonDeletedImages { db with images := img :: db.images } rid
          = nonDeletedImages db rid) := by
  refine ⟨?_, ?_, ?_, ?_, ?_⟩
  · simp [validUploadBody, decide_eq_true_iff]
  · intro hv
    simp [postUploadUrl, checkImageUploadAccess, hr, hv]
  · intro hv hn
    simp [postUploadUrl, checkImageUploadAccess, hr, hv, hn]
  · intro hv hn
    simp [postUploadUrl, checkImageUploadAccess, hr, hv, Nat.not_le.mpr hn,
      pendingImage]
  · intro img himg
    simp [nonDeletedImages, himg]

/-- Witness for C5: a valid 123-byte jpeg upload on a report with no images
is allocated id 50 and path "reports/10/50.jpg", and the pending record is
stored. -/
theorem c5_upload_ceiling_witness :
    postUploadUrl ⟨[⟨1, Role.client, none⟩], [],
        [⟨10, 1, 2025, 1, 0, none, none, none, none, none, none, none, none, none, 100, none⟩], []⟩
      (some ⟨1, Role.client⟩) 10 ⟨"image/jpeg", 123⟩ 50 500
    = .ok (⟨[⟨1, Role.client, none⟩], [],
        [⟨10, 1, 2025, 1, 0, none, none, none, none, none, none, none, none, none, 100, none⟩],
        [pendingImage 10 50 ⟨"image/jpeg", 123⟩ 500]⟩,
      ⟨(pendingImage 10 50 ⟨"image/jpeg", 123⟩ 500).storage_path, 50⟩) :=
  (c5_upload_ceiling ⟨[⟨1, Role.client, none⟩], [],
      [⟨10, 1, 2025, 1, 0, none, none, none, none, none, none, none, none, none, 100, none⟩], []⟩
    10 ⟨10, 1, 2025, 1, 0, none, none, none, none, none, none, none, none, none, 100, none⟩
    ⟨"image/jpeg", 123⟩ 50 500 (by decide)).2.2.2.1 (by decide) (by decide)

/-- After deactivation no row of the pair is active: the deactivating update
touches every row matching `(trainerId, clientId)`. -/
theorem isActive_deactivated (db : DB) (t c : Nat) :
    isActiveAssignment (assignmentsDeactivated db t c) t c = false := by
  simp only [isActiveAssignment, assignmentsDeactivated, List.any_map,
    List.any_eq_false, Function.comp]
  intro a _
  by_cases h1 : a.trainer_id = t
  · by_cases h2 : a.client_id = c
    · rw [if_pos (by simp [h1, h2])]
      simp
    · rw [if_neg (by simp [h2])]
      simp [h2]
  · rw [if_neg (by simp [h1])]
    simp [h1]

/-- An update that does not touch the key columns commutes with the pair
lookup. -/
theorem findAssignment_map (l : List Assignment) (t c : Nat)
    (f : Assignment → Assignment)
    (hf : ∀ x, (f x).trainer_id = x.trainer_id ∧ (f x).client_id = x.client_id) :
    (l.map f).find? (assignPred t c) = (l.find? (assignPred t c)).map f := by
  have hp : ∀ x, assignPred t c (f x) = assignPred t c x := by
    intro x
    unfold assignPred
    rw [(hf x).1, (hf x).2]
  induction l with
  | nil => rfl
  | cons a l ih =>
    by_cases hpair : assignPred t c a = true
    · rw [List.map_cons, List.find?_cons_of_pos _ ((hp a).trans hpair),
        List.find?_cons_of_pos _ hpair]
      rfl
    · rw [List.map_cons,
        List.find?_cons_of_neg _ (fun hc => hpair ((hp a).symm.trans hc)),
        List.find?_cons_of_neg _ hpair]
      exact ih

/-- After activation the pair is active: the row produced by the update
matches the active-assignment query. -/
theorem isActive_activated (db : DB) (t c : Nat) (now : Int) (a : Assignment)
    (h : findAssignment db t c = some a) :
    isActiveAssignment (assignmentsActivated db t c now) t c = true := by
  have h' : db.assignments.find? (assignPred t c) = some a := h
  have hmem : a ∈ db.assignments := List.mem_of_find?_eq_some h'
  have hpred : assignPred t c a = true := List.find?_some h'
  have hpred' : a.trainer_id = t ∧ a.client_id = c := by
    simpa [assignPred] using hpred
  have hpair : (a.trainer_id == t && a.client_id == c) = true := by
    simpa [assignPred] using hpred
  simp only [isActiveAssignment, assignmentsActivated, List.any_eq_true]
  refine ⟨if a.trainer_id == t && a.client_id == c then
    { a with is_active := true, started_at := now } else a, List.mem_map_of_mem _ hmem, ?_⟩
  rw [if_pos hpair]
  simp [hpred'.1, hpred'.2]

/-- Every row of the pair carries `is_active = true` and the fresh
`started_at` after activation. -/
theorem activated_rows (db : DB) (t c : Nat) (now : Int) :
    ∀ x ∈ (assignmentsActivated db t c now).assignments,
      x.trainer_id = t → x.client_id = c → x.is_active = true ∧ x.started_at = now := by
  intro x hx h1 h2
  simp only [assignmentsActivated, List.mem_map] at hx
  obtain ⟨y, _, hy⟩ := hx
  by_cases hpair : (y.trainer_id == t && y.client_id == c) = true
  · rw [if_pos hpair] at hy
    rw [← hy]
    exact ⟨rfl, rfl⟩
  · rw [if_neg hpair] at hy
    subst hy
    simp [h1, h2] at hpair

/-- C6: for every (coach, client) pair with both users present — the coach
acting as the principal — activate inserts an active row with
`started_at = now` when none exists and otherwise re-activates the existing
row with a fresh `started_at`; deactivate fails 404 when no row exists and
otherwise clears `is_active`, after which `isActiveAssignment` is false no
matter what activations preceded, and a subsequent activate restores the
pair to active with a fresh `started_at`. -/
theorem c6_assignment_lifecycle (db : DB) (t c : Nat) (now1 now2 : Int)
    (tr cl : UserRow)
    (htr : findUser db t Role.trainer = some tr)
    (hcl : findUser db c Role.client = some cl) :
    (findAssignment db t c = none →
      postActivate db (some ⟨t, Role.trainer⟩) t c now1
        = .ok ({ db with assignments := db.assignments ++ [⟨t, c, true, now1⟩] },
            ⟨t, c, true, now1⟩)
      ∧ postDeactivate db (some ⟨t, Role.trainer⟩) t c = .error assignmentNotFoundErr)
      ∧ (∀ a, findAssignment db t c = some a →
        postActivate db (some ⟨t, Role.trainer⟩) t c now1
          = .ok (assignmentsActivated db t c now1, ⟨t, c, true, now1⟩)
        ∧ isActiveAssignment (assignmentsActivated db t c now1) t c = true
        ∧ (∀ x ∈ (assignmentsActivated db t c now1).assignments,
            x.trainer_id = t → x.client_id = c → x.is_active = true ∧ x.started_at = now1))
      ∧ (∀ a, findAssignment db t c = some a →
        postDeactivate db (some ⟨t, Role.trainer⟩) t c
          = .ok (assignmentsDeactivated db t c, { a with is_active := false })
        ∧ isActiveAssignment (assignmentsDeactivated db t c) t c = false
        ∧ postActivate (assignmentsDeactivated db t c) (some ⟨t, Role.trainer⟩) t c now2
            = .ok (assignmentsActivated (assignmentsDeactivated db t c) t c now2,
                ⟨t, c, true, now2⟩)
        ∧ isActiveAssignment
            (assignmentsActivated (assignmentsDeactivated db t c) t c now2) t c = true
        ∧ (∀ x ∈ (assignmentsActivated (assignmentsDeactivated db t c) t c now2).assignments,
            x.trainer_id = t → x.client_id = c →
              x.is_active = true ∧ x.started_at = now2)) := by
  have husers : ∀ role id, findUser (assignmentsDeactivated db t c) id role = findUser db id role := by
    intro role id
    rfl
  refine ⟨?_, ?_, ?_⟩
  · intro hnone
    constructor
    · simp [postActivate, htr, hcl, hnone]
    · simp [postDeactivate, htr, hcl, hnone]
  · intro a ha
    refine ⟨by simp [postActivate, htr, hcl, ha], isActive_activated db t c now1 a ha,
      activated_rows db t c now1⟩
  · intro a ha
    have hfindD : findAssignment (assignmentsDeactivated db t c) t c
        = some { a with is_active := false } := by
      have := findAssignment_map db.assignments t c
        (fun x => if x.trainer_id == t && x.client_id == c then
          { x with is_active := false } else x)
        (by
          intro x
          dsimp only
          by_cases hpair : (x.trainer_id == t && x.client_id == c) = true
          · rw [if_pos hpair]
            exact ⟨rfl, rfl⟩
          · rw [if_neg hpair]
            exact ⟨rfl, rfl⟩)
      have ha' : db.assignments.find? (assignPred t c) = some a := ha
      have hpred : assignPred t c a = true := List.find?_some ha'
      have hpair : (a.trainer_id == t && a.client_id == c) = true := by
        simpa [assignPred] using hpred
      unfold findAssignment
      show (db.assignments.map _).find? _ = _
      rw [this, ha']
      rw [Option.map_some']
      rw [if_pos hpair]
    refine ⟨by simp [postDeactivate, htr, hcl, ha], isActive_deactivated db t c,
      by simp [postActivate, husers, htr, hcl, hfindD],
      isActive_activated _ t c now2 _ hfindD,
      activated_rows _ t c now2⟩

/-- Witness for C6: with trainer 2 and client 1 present and an inactive
stored assignment, deactivation then re-activation at t = 900 leaves the
pair active with `started_at = 900`. -/
theorem c6_assignment_lifecycle_witness :
    postDeactivate ⟨[⟨1, Role.client, none⟩, ⟨2, Role.trainer, none⟩],
        [⟨2, 1, true, 5⟩], [], []⟩ (some ⟨2, Role.trainer⟩) 2 1
      = .ok (assignmentsDeactivated ⟨[⟨1, Role.client, none⟩, ⟨2, Role.trainer, none⟩],
          [⟨2, 1, true, 5⟩], [], []⟩ 2 1, ⟨2, 1, false, 5⟩)
      ∧ isActiveAssignment (assignmentsDeactivated ⟨[⟨1, Role.client, none⟩, ⟨2, Role.trainer, none⟩],
          [⟨2, 1, true, 5⟩], [], []⟩ 2 1) 2 1 = false
      ∧ isActiveAssignment (assignmentsActivated (assignmentsDeactivated
          ⟨[⟨1, Role.client, none⟩, ⟨2, Role.trainer, none⟩], [⟨2, 1, true, 5⟩], [], []⟩ 2 1)
          2 1 900) 2 1 = true := by
  have h := (c6_assignment_lifecycle
    ⟨[⟨1, Role.client, none⟩, ⟨2, Role.trainer, none⟩], [⟨2, 1, true, 5⟩], [], []⟩
    2 1 7 900 ⟨2, Role.trainer, none⟩ ⟨1, Role.client, none⟩
    (by decide) (by decide)).2.2 ⟨2, 1, true, 5⟩ (by decide)
  exact ⟨h.1, h.2.1, h.2.2.2.1⟩

/-- C7: a principal whose role is trainer (the spec's coach) is denied every
write to report content with a 403: submitting a report for any client —
assigned or not — editing any existing report owned by another user, and
soft-deleting any such report, irrespective of whether an active assignment
with the report's owner exists. -/
theorem c7_coach_never_writes_reports (db : DB) (u : AuthUser)
    (hrole : u.role = Role.trainer) :
    (∀ clientId body nowYear nowMsIntoYear nowMs newId,
      postSubmitReport db (some u) clientId body nowYear nowMsIntoYear nowMs newId
        = .error submitAccessErr)
      ∧ (∀ reportId r raw now, findReport db reportId = some r → u.id ≠ r.client_id →
        ∃ e, patchReport db (some u) reportId raw now = .error e ∧ e.status = 403)
      ∧ (∀ reportId r now, findReport db reportId = some r → u.id ≠ r.client_id →
        ∃ e, deleteReport db (some u) reportId now = .error e ∧ e.status = 403) := by
  obtain ⟨uid, urole⟩ := u
  cases hrole
  refine ⟨?_, ?_, ?_⟩
  · intro clientId body nowYear nowMsIntoYear nowMs newId
    simp [postSubmitReport]
  · intro reportId r raw now hr hne
    by_cases hact : isActiveAssignment db uid r.client_id = true
    · exact ⟨ownershipEditErr,
        by simp [patchReport, checkReportAccess, hr, hact, hne], rfl⟩
    · exact ⟨accessEditErr,
        by simp [patchReport, checkReportAccess, hr, Bool.eq_false_iff.mpr hact], rfl⟩
  · intro reportId r now hr hne
    by_cases hact : isActiveAssignment db uid r.client_id = true
    · exact ⟨ownershipDeleteErr,
        by simp [deleteReport, checkReportAccess, hr, hact, hne], rfl⟩
    · exact ⟨accessDeleteErr,
        by simp [deleteReport, checkReportAccess, hr, Bool.eq_false_iff.mpr hact], rfl⟩

/-- Witness for C7: trainer 2, actively assigned to client 1, still cannot
submit a report as client 1. -/
theorem c7_coach_never_writes_reports_witness :
    postSubmitReport ⟨[⟨1, Role.client, none⟩, ⟨2, Role.trainer, none⟩],
        [⟨2, 1, true, 5⟩], [], []⟩ (some ⟨2, Role.trainer⟩) 1
      ⟨some 70, none, none, none, none, none, none, none, none⟩ 2025 0 100 10
    = .error submitAccessErr :=
  (c7_coach_never_writes_reports
    ⟨[⟨1, Role.client, none⟩, ⟨2, Role.trainer, none⟩], [⟨2, 1, true, 5⟩], [], []⟩
    ⟨2, Role.trainer⟩ rfl).1 1
    ⟨some 70, none, none, none, none, none, none, none, none⟩ 2025 0 100 10

/-- C8: an authorized trends query reads exactly the client's non-deleted
reports, in `created_at`-ascending order; for each requested metric — all
seven measurements plus cardio-days when the query names none — the result
holds that metric's non-null values in that order, and a metric whose array
would be empty is omitted from the result entirely. -/
theorem c8_trends (db : DB) (clientId : Nat) (u : AuthUser) (cr : UserRow)
    (metrics : Option (List Metric))
    (hacc : checkTrendsAccess db u.id u.role clientId = true)
    (hcl : findUser db clientId Role.client = some cr) :
    getTrends db (some u) clientId metrics
      = .ok (trendsResult db clientId
          (match metrics with | none => allMetrics | some ms => ms))
      ∧ (∀ requested m vs, (m, vs) ∈ trendsResult db clientId requested →
        m ∈ requested ∧ vs = trendSeries db clientId m ∧ vs ≠ [])
      ∧ (∀ requested m, m ∈ requested → trendSeries db clientId m ≠ [] →
        (m, trendSeries db clientId m) ∈ trendsResult db clientId requested)
      ∧ List.Sorted reportLe (trendsSourceReports db clientId)
      ∧ (∀ r : Report, r ∈ trendsSourceReports db clientId ↔
        (r ∈ db.reports ∧ r.client_id = clientId ∧ r.deleted_at = none)) := by
  refine ⟨by simp [getTrends, hacc, hcl], ?_, ?_, ?_, ?_⟩
  · intro requested m vs hmem
    simp only [trendsResult, List.mem_filter, List.mem_map] at hmem
    obtain ⟨⟨m2, hm2, heq⟩, hne⟩ := hmem
    injection heq with h1 h2
    subst h1
    subst h2
    refine ⟨hm2, rfl, ?_⟩
    simpa using hne
  · intro requested m hm hne
    simp only [trendsResult, List.mem_filter, List.mem_map]
    exact ⟨⟨m, hm, rfl⟩, by simpa using hne⟩
  · exact List.sorted_insertionSort reportLe _
  · intro r
    simp [trendsSourceReports, List.mem_filter]

/-- Witness for C8: client 1's reports carry weights 70, null, 68 in
creation order (stored scrambled); the default query yields a weight array
[70, 68] and omits every other metric. -/
theorem c8_trends_witness :
    getTrends ⟨[⟨1, Role.client, none⟩], [],
        [⟨23, 1, 2025, 2, 0, some 68, none, none, none, none, none, none, none, none, 300, none⟩,
          ⟨21, 1, 2025, 1, 0, some 70, none, none, none, none, none, none, none, none, 100, none⟩,
          ⟨22, 1, 2025, 1, 1, none, none, none, none, none, none, none, none, none, 200, none⟩], []⟩
      (some ⟨1, Role.client⟩) 1 none
    = .ok (trendsResult ⟨[⟨1, Role.client, none⟩], [],
        [⟨23, 1, 2025, 2, 0, some 68, none, none, none, none, none, none, none, none, 300, none⟩,
          ⟨21, 1, 2025, 1, 0, some 70, none, none, none, none, none, none, none, none, 100, none⟩,
          ⟨22, 1, 2025, 1, 1, none, none, none, none, none, none, none, none, none, 200, none⟩], []⟩
        1 allMetrics)
      ∧ trendsResult ⟨[⟨1, Role.client, none⟩], [],
        [⟨23, 1, 2025, 2, 0, some 68, none, none, none, none, none, none, none, none, 300, none⟩,
          ⟨21, 1, 2025, 1, 0, some 70, none, none, none, none, none, none, none, none, 100, none⟩,
          ⟨22, 1, 2025, 1, 1, none, none, none, none, none, none, none, none, none, 200, none⟩], []⟩
        1 allMetrics = [(Metric.weight, [70, 68])] :=
  ⟨(c8_trends ⟨[⟨1, Role.client, none⟩], [],
      [⟨23, 1, 2025, 2, 0, some 68, none, none, none, none, none, none, none, none, 300, none⟩,
        ⟨21, 1, 2025, 1, 0, some 70, none, none, none, none, none, none, none, none, 100, none⟩,
        ⟨22, 1, 2025, 1, 1, none, none, none, none, none, none, none, none, none, 200, none⟩], []⟩
    1 ⟨1, Role.client⟩ ⟨1, Role.client, none⟩ none (by decide) (by decide)).1, by decide⟩

/-- `value || null` stores `null` exactly for an absent field or the value 0. -/
theorem orNullRat_eq_none (v : Option Rat) :
    orNullRat v = none ↔ (v = none ∨ v = some 0) := by
  cases v with
  | none => simp [orNullRat]
  | some x =>
    by_cases hx : x = 0
    · subst hx
      simp [orNullRat]
    · simp [orNullRat, hx]

/-- `note || null` stores `null` exactly for an absent note or the empty
string. -/
theorem orNullStr_eq_none (v : Option String) :
    orNullStr v = none ↔ (v = none ∨ v = some "") := by
  cases v with
  | none => simp [orNullStr]
  | some x =>
    by_cases hx : x = ""
    · subst hx
      simp [orNullStr]
    · simp [orNullStr, hx]

/-- The submit body with every measurement equal to 0 replaced by an absent
field and an empty note dropped: the claim's "indistinguishable from an
omitted field". -/
def coalesceZeros (b : SubmitBody) : SubmitBody :=
  { weight := if b.weight = some 0 then none else b.weight
    waist := if b.waist = some 0 then none else b.waist
    chest := if b.chest = some 0 then none else b.chest
    biceps_left := if b.biceps_left = some 0 then none else b.biceps_left
    biceps_right := if b.biceps_right = some 0 then none else b.biceps_right
    thigh_left := if b.thigh_left = some 0 then none else b.thigh_left
    thigh_right := if b.thigh_right = some 0 then none else b.thigh_right
    cardio_days := if b.cardio_days = some 0 then none else b.cardio_days
    note := if b.note = some "" then none else b.note }

/-- `value || null` cannot tell a 0 from an absent field. -/
theorem orNullRat_coalesce (v : Option Rat) :
    orNullRat (if v = some 0 then none else v) = orNullRat v := by
  by_cases h : v = some 0
  · rw [if_pos h, h]
    simp [orNullRat]
  · rw [if_neg h]

/-- `note || null` cannot tell an empty string from an absent note. -/
theorem orNullStr_coalesce (v : Option String) :
    orNullStr (if v = some "" then none else v) = orNullStr v := by
  by_cases h : v = some ""
  · rw [if_pos h, h]
    simp [orNullStr]
  · rw [if_neg h]

/-- Replacing a 0 measurement by an absent field does not change the zod
verdict: both are accepted when the upper bound is non-negative. -/
theorem validMeasurement_coalesce (v : Option Rat) (mx : Rat) (hmx : 0 ≤ mx) :
    validMeasurement (if v = some 0 then none else v) mx = validMeasurement v mx := by
  by_cases h : v = some 0
  · rw [if_pos h, h]
    simp [validMeasurement, hmx]
  · rw [if_neg h]

/-- Replacing 0 cardio-days by an absent field does not change the verdict. -/
theorem validCardioDays_coalesce (v : Option Rat) :
    validCardioDays (if v = some 0 then none else v) = validCardioDays v := by
  by_cases h : v = some 0
  · rw [if_pos h, h]
    simp [validCardioDays]
  · rw [if_neg h]

/-- Replacing an empty note by an absent one does not change the verdict. -/
theorem validNote_coalesce (v : Option String) :
    validNote (if v = some "" then none else v) = validNote v := by
  by_cases h : v = some ""
  · rw [if_pos h, h]
    simp [validNote]
  · rw [if_neg h]

/-- Zero measurements and an empty note vanish before storage. -/
theorem storedReport_coalesce (clientId newId : Nat) (y : Int) (w s : Nat)
    (b : SubmitBody) (t : Int) :
    storedReport clientId newId y w s (coalesceZeros b) t
      = storedReport clientId newId y w s b t := by
  simp [storedReport, coalesceZeros, orNullRat_coalesce, orNullStr_coalesce]

/-- Zero measurements and an empty note vanish before validation, too. -/
theorem validSubmitBody_coalesce (b : SubmitBody) :
    validSubmitBody (coalesceZeros b) = validSubmitBody b := by
  unfold validSubmitBody coalesceZeros
  rw [validMeasurement_coalesce b.weight 1000 (by norm_num),
    validMeasurement_coalesce b.waist 500 (by norm_num),
    validMeasurement_coalesce b.chest 500 (by norm_num),
    validMeasurement_coalesce b.biceps_left 200 (by norm_num),
    validMeasurement_coalesce b.biceps_right 200 (by norm_num),
    validMeasurement_coalesce b.thigh_left 300 (by norm_num),
    validMeasurement_coalesce b.thigh_right 300 (by norm_num),
    validCardioDays_coalesce b.cardio_days, validNote_coalesce b.note]

/-- C9: the validator accepts 0 for every measurement (and cardio-days) and
the empty string for the note, yet each field is stored through
`value || null`, so a supplied 0 or empty note is persisted as `null`: the
stored field is `null` exactly when the field was omitted or was 0 (resp.
""), a submission with zeros is indistinguishable from one with the fields
omitted, and a report storing `null` for a metric contributes nothing to
that metric's trend array. -/
theorem c9_zero_stored_as_null (db : DB) (user : Option AuthUser)
    (clientId newId : Nat) (b : SubmitBody) (y : Int) (w s : Nat) (t : Int)
    (nowYear : Int) (nowMsIntoYear : Nat) (nowMs : Int) :
    ((storedReport clientId newId y w s b t).weight = none
        ↔ (b.weight = none ∨ b.weight = some 0))
      ∧ ((storedReport clientId newId y w s b t).waist = none
        ↔ (b.waist = none ∨ b.waist = some 0))
      ∧ ((storedReport clientId newId y w s b t).chest = none
        ↔ (b.chest = none ∨ b.chest = some 0))
      ∧ ((storedReport clientId newId y w s b t).biceps_left = none
        ↔ (b.biceps_left = none ∨ b.biceps_left = some 0))
      ∧ ((storedReport clientId newId y w s b t).biceps_right = none
        ↔ (b.biceps_right = none ∨ b.biceps_right = some 0))
      ∧ ((storedReport clientId newId y w s b t).thigh_left = none
        ↔ (b.thigh_left = none ∨ b.thigh_left = some 0))
      ∧ ((storedReport clientId newId y w s b t).thigh_right = none
        ↔ (b.thigh_right = none ∨ b.thigh_right = some 0))
      ∧ ((storedReport clientId newId y w s b t).cardio_days = none
        ↔ (b.cardio_days = none ∨ b.cardio_days = some 0))
      ∧ ((storedReport clientId newId y w s b t).note = none
        ↔ (b.note = none ∨ b.note = some ""))
      ∧ validSubmitBody ⟨some 0, some 0, some 0, some 0, some 0, some 0, some 0,
          some 0, some ""⟩ = true
      ∧ postSubmitReport db user clientId (coalesceZeros b) nowYear nowMsIntoYear nowMs newId
        = postSubmitReport db user clientId b nowYear nowMsIntoYear nowMs newId
      ∧ (∀ (m : Metric) (rs ts : List Report) (r : Report), metricValue m r = none →
        (rs ++ r :: ts).filterMap (metricValue m)
          = (rs ++ ts).filterMap (metricValue m)) := by
  refine ⟨orNullRat_eq_none b.weight, orNullRat_eq_none b.waist,
    orNullRat_eq_none b.chest, orNullRat_eq_none b.biceps_left,
    orNullRat_eq_none b.biceps_right, orNullRat_eq_none b.thigh_left,
    orNullRat_eq_none b.thigh_right, orNullRat_eq_none b.cardio_days,
    orNullStr_eq_none b.note, by decide, ?_, ?_⟩
  · simp only [postSubmitReport, validSubmitBody_coalesce, storedReport_coalesce]
  · intro m rs ts r hm
    simp [List.filterMap_append, hm]

/-- C10: for every authenticated principal — super-admin included — a get,
edit, soft-delete or upload-url request addressed to a report id that does
not exist, or whose report is already soft-deleted, fails with the 403
access-denied error of the respective handler rather than 404, because the
access check fetches the report first and reports no access when the fetch
returns nothing. -/
theorem c10_missing_report_forbidden (db : DB) (u : AuthUser) (rid : Nat)
    (raw : EditBodyRaw) (now : Int) (body : UploadBody) (newImageId : Nat)
    (h : findReport db rid = none) :
    getReport db (some u) rid = .error accessViewErr
      ∧ patchReport db (some u) rid raw now = .error accessEditErr
      ∧ deleteReport db (some u) rid now = .error accessDeleteErr
      ∧ postUploadUrl db (some u) rid body newImageId now = .error accessUploadErr := by
  refine ⟨?_, ?_, ?_, ?_⟩ <;>
    simp [getReport, patchReport, deleteReport, postUploadUrl,
      checkReportAccess, checkImageUploadAccess, h]

/-- Witness for C10: a super-admin's requests against report id 77 — id 77
exists only soft-deleted — all fail with the 403 access errors. -/
theorem c10_missing_report_forbidden_witness :
    getReport ⟨[], [],
        [⟨77, 1, 2025, 1, 0, none, none, none, none, none, none, none, none, none, 100, some 500⟩], []⟩
      (some ⟨9, Role.superAdmin⟩) 77 = .error accessViewErr
      ∧ deleteReport ⟨[], [],
          [⟨77, 1, 2025, 1, 0, none, none, none, none, none, none, none, none, none, 100, some 500⟩], []⟩
        (some ⟨9, Role.superAdmin⟩) 77 600 = .error accessDeleteErr :=
  ⟨(c10_missing_report_forbidden ⟨[], [],
      [⟨77, 1, 2025, 1, 0, none, none, none, none, none, none, none, none, none, 100, some 500⟩], []⟩
    ⟨9, Role.superAdmin⟩ 77 ⟨none, none, none, none, none, none, none, none, NoteField.absent⟩
    600 ⟨"image/jpeg", 123⟩ 50 (by decide)).1,
  (c10_missing_report_forbidden ⟨[], [],
      [⟨77, 1, 2025, 1, 0, none, none, none, none, none, none, none, none, none, 100, some 500⟩], []⟩
    ⟨9, Role.superAdmin⟩ 77 ⟨none, none, none, none, none, none, none, none, NoteField.absent⟩
    600 ⟨"image/jpeg", 123⟩ 50 (by decide)).2.2.1⟩

end GymReport
